import Mathlib

/-!
Verification of the connection-management core of the minreq HTTP client
(src/connection.rs), via a shallow embedding in Lean 4.

Modelling conventions:
* Time is modelled in abstract integral units: an `Instant` is a `Nat`, a
  `Duration` is a `Nat` (the source derives all durations from
  `Duration::from_secs`, so one unit corresponds to one second).
* Stateful I/O is modelled by explicit state passing; blocking calls and
  socket-configuration calls are recorded as events in a trace list, so
  that "no blocking syscall is issued" is a statement about the trace.
* Fallible Rust functions returning `Result<T, E>` become `Except E T`.
* External collaborators (DNS resolution, the socket connect/write/read
  results, the lazy response reader, the recursive `send_lazy` re-entry
  and `Request::redirect_to`) are parameters of the embedded functions:
  the source's control flow around them is translated faithfully.
-/

/-- Mirrors `std::io::ErrorKind` (the kinds used by connection.rs). -/
inductive IOErrorKind where
  | timedOut
  | invalidInput
  | otherKind
deriving DecidableEq, Repr

/-- Mirrors `std::io::Error`: a kind plus a message. -/
structure IOErr where
  kind : IOErrorKind
  msg : String
deriving DecidableEq, Repr

/-- Mirrors the crate's `Error` enum (the variants reachable from connection.rs). -/
inductive Error where
  | ioError (e : IOErr)
  | redirectLocationMissing
  | punycodeFeatureNotEnabled
  | punycodeConversionFailed
  | otherErr (s : String)
deriving DecidableEq, Repr

/-- Modelled from the spec: the `Method` enum of the `Request` collaborator
("method (enum: GET/POST/PUT/DELETE/…)"); `Method` itself is defined outside
src/connection.rs. -/
inductive Method where
  | get
  | head
  | post
  | put
  | delete
  | options
  | trace
  | patch
  | custom (s : String)
deriving DecidableEq, Repr

/-- Modelled from the spec: the `Request` collaborator, with the fields
connection.rs reads or writes: host (always "host:port"), method, an optional
client-specified timeout in seconds. The serialized byte payload and the
proxy descriptor do not affect the claims under verification and are omitted
(the send model below corresponds to the `not(feature = "proxy")` build). -/
structure Request where
  host : String
  method : Method
  timeout : Option Nat
deriving DecidableEq, Repr

/-- Rust `u64::from_str` as used by `t.parse::<u64>()`: an optional leading
'+' sign followed by at least one ASCII digit and nothing else, with the
value below 2^64 (overflow is a parse failure). The string is handled
through its character list. -/
def parse_u64 (s : String) : Option Nat :=
  let cs := if s.data.head? = some '+' then s.data.tail else s.data
  if cs.isEmpty || cs.any (fun c => !c.isDigit) then
    none
  else
    let n := cs.foldl (fun acc c => acc * 10 + (c.toNat - 48)) 0
    if n < 2 ^ 64 then some n else none

/-- Mirrors `struct Connection` of connection.rs: a request plus the resolved
timeout-in-seconds. -/
structure Connection where
  request : Request
  timeout : Option Nat
deriving DecidableEq, Repr

/-- Mirrors `Connection::new`: the resolved timeout is the request's own
timeout, or else the `MINREQ_TIMEOUT` environment variable parsed as a `u64`
(an absent or unparseable variable contributes nothing). The environment
variable's value is passed explicitly as `envTimeout`. -/
def Connection.new (request : Request) (envTimeout : Option String) : Connection :=
  let timeout :=
    match request.timeout with
    | some t => some t
    | none => envTimeout.bind parse_u64
  { request := request, timeout := timeout }

/-- Mirrors `ensure_ascii_host` for the `not(feature = "punycode")` build:
an ASCII host passes through unchanged, a non-ASCII host is rejected with
`Error::PunycodeFeatureNotEnabled`. Rust's `str::is_ascii` holds iff every
char is below code point 128; the string is checked through its character
list. -/
def ensure_ascii_host (host : String) : Except Error String :=
  if host.data.all (fun c => c.toNat < 128) then
    Except.ok host
  else
    Except.error Error.punycodeFeatureNotEnabled

/-- Mirrors `calibrate_timeout`: when both the remaining duration and the
absolute deadline are present, recompute the remaining duration as
`timeout_at.checked_duration_since(now)` — defined (as `timeout_at - now`)
exactly when `now ≤ timeout_at` — and fail with a TimedOut I/O error when it
is undefined. The mutable `&mut Option<Duration>` is modelled by returning
the updated option. -/
def calibrate_timeout (timeout : Option Nat) (timeout_at : Option Nat) (now : Nat) :
    Except Error (Option Nat) :=
  match timeout, timeout_at with
  | some _, some t =>
    if now ≤ t then
      Except.ok (some (t - now))
    else
      Except.error (Error.ioError
        ⟨IOErrorKind.timedOut, "the request's timeout was reached during the initial connection"⟩)
  | _, _ => Except.ok timeout

/-- Models Rust std's documented `TcpStream::set_write_timeout` contract on the
socket's write-timeout state: passing `Some(0)` is an error ("an Err is
returned if the zero Duration is passed"), so — with the error discarded by
`.ok()` as connection.rs does — the previous state is kept and no timeout
bound is installed; any other argument replaces the state. -/
def set_write_timeout_state (current : Option Nat) (arg : Option Nat) : Option Nat :=
  match arg with
  | some 0 => current
  | _ => arg

/-- Events of a single `HttpStream::read` call. -/
inductive ReadEvent where
  | setReadTimeout (d : Nat)
  | socketRead
deriving DecidableEq, Repr

/-- Mirrors `enum HttpStream`: a plaintext or a TLS-wrapped stream, each
carrying the optional absolute deadline. The wrapped reader itself is
external and is represented by its read outcome, passed to `read`. -/
inductive HttpStream where
  | unsecured (timeout_at : Option Nat)
  | secured (timeout_at : Option Nat)
deriving DecidableEq, Repr

/-- The deadline stored in either variant of the stream. -/
def HttpStream.timeoutAt : HttpStream → Option Nat
  | HttpStream.unsecured t => t
  | HttpStream.secured t => t

/-- Mirrors `<HttpStream as Read>::read`: the shared `timeout` closure checks
the deadline against `now` — at or past the deadline it fails with a TimedOut
I/O error before any socket call; otherwise it sets the socket's read timeout
to the remaining duration (the `.ok()`-discarded set call is recorded as an
event) — and only then is the inner blocking read performed, with outcome
`socketRead`. Both variants run the same logic. -/
def HttpStream.read (stream : HttpStream) (now : Nat) (socketRead : Except IOErr Nat) :
    Except IOErr Nat × List ReadEvent :=
  let check : Option Nat → Except IOErr (Option Nat) := fun timeout_at =>
    match timeout_at with
    | some t =>
      if t ≤ now then
        Except.error ⟨IOErrorKind.timedOut, "The request's timeout was reached."⟩
      else
        Except.ok (some (t - now))
    | none => Except.ok none
  match check stream.timeoutAt with
  | Except.error e => (Except.error e, [])
  | Except.ok none => (socketRead, [ReadEvent.socketRead])
  | Except.ok (some d) => (socketRead, [ReadEvent.setReadTimeout d, ReadEvent.socketRead])

/-- Mirrors `ResponseLazy` as consumed by connection.rs: a status code and a
header map (the upstream parser stores keys lowercased; the map is modelled
as an association list). -/
structure ResponseLazy where
  status_code : Int
  headers : List (String × String)
deriving DecidableEq, Repr

/-- Lookup in the header association list, mirroring `HashMap::get`. -/
def headersGet (hs : List (String × String)) (key : String) : Option String :=
  (hs.find? (fun p => p.1 = key)).map (fun p => p.2)

/-- Mirrors `get_redirect`. The collaborator `Request::redirect_to` (defined
outside connection.rs) is a parameter `redirectTo`. For status 301, 302, 303
or 307: a missing Location is the `RedirectLocationMissing` error; otherwise
the rewritten request is produced, with the method downgraded to GET on a 303
when it was POST, PUT or DELETE. Any other status yields no redirect. -/
def get_redirect (redirectTo : Request → String → Except Error Request)
    (connection : Connection) (status_code : Int) (url : Option String) :
    Option (Except Error Request) :=
  if status_code = 301 ∨ status_code = 302 ∨ status_code = 303 ∨ status_code = 307 then
    match url with
    | none => some (Except.error Error.redirectLocationMissing)
    | some url =>
      match redirectTo connection.request url with
      | Except.ok request =>
        let request :=
          if status_code = 303 then
            match request.method with
            | Method.post | Method.put | Method.delete => { request with method := Method.get }
            | _ => request
          else request
        some (Except.ok request)
      | Except.error err => some (Except.error err)
  else
    none

/-- Mirrors `handle_redirects`: look up the `location` header, ask
`get_redirect` for a decision; on `Some`, propagate its error or send the new
request via the re-entry point `sendLazy` (the crate's `Request::send_lazy`);
on `None`, return the response unchanged. -/
def handle_redirects (redirectTo : Request → String → Except Error Request)
    (sendLazy : Request → Except Error ResponseLazy)
    (connection : Connection) (response : ResponseLazy) : Except Error ResponseLazy :=
  let status_code := response.status_code
  let url := headersGet response.headers "location"
  match get_redirect redirectTo connection status_code url with
  | some request => request.bind sendLazy
  | none => Except.ok response

/-- Blocking syscalls and socket-configuration calls performed by `send`,
recorded in order. -/
inductive Event where
  | dnsResolve (host : String)
  | connectBounded (host : String) (timeout : Nat)
  | connectUnbounded (host : String)
  | setWriteTimeout (d : Option Nat)
  | writeAll
  | readResponse (timeout_at : Option Nat)
deriving DecidableEq, Repr

/-- External-world outcomes consumed by one `send` call: the clock at
send-start, the wall-clock time the connect phase consumes, the DNS result
(`to_socket_addrs` may fail, and may yield no candidate address), the socket
connect and write outcomes, whether `BufWriter::into_inner` succeeds, the
lazy response produced from the stream, and the collaborators `redirect_to`
and `send_lazy` used by redirect handling. -/
structure SendEnv where
  now0 : Nat
  connectElapsed : Nat
  dnsResult : Except IOErr (Option Unit)
  connectResult : Except IOErr Unit
  writeResult : Except IOErr Unit
  intoInnerOk : Bool
  response : Except Error ResponseLazy
  redirectTo : Request → String → Except Error Request
  sendLazy : Request → Except Error ResponseLazy

/-- Mirrors the `tcp_connect` closure inside `Connection::connect`: with a
timeout, resolve the address (`to_socket_addrs`, an I/O error propagates and
an empty candidate list is the "failed to lookup address information" error)
and call `TcpStream::connect_timeout`, which per the std contract rejects a
zero duration with an InvalidInput error without attempting a connection;
without a timeout, call the unbounded `TcpStream::connect` directly. -/
def tcp_connect (env : SendEnv) (host : String) (timeout : Option Nat) :
    Except Error Unit × List Event :=
  match timeout with
  | some t =>
    match env.dnsResult with
    | Except.error e => (Except.error (Error.ioError e), [Event.dnsResolve host])
    | Except.ok none =>
      (Except.error (Error.otherErr "failed to lookup address information"),
        [Event.dnsResolve host])
    | Except.ok (some _) =>
      if t = 0 then
        (Except.error (Error.ioError ⟨IOErrorKind.invalidInput, "cannot set a 0 duration timeout"⟩),
          [Event.dnsResolve host])
      else
        (env.connectResult.mapError Error.ioError,
          [Event.dnsResolve host, Event.connectBounded host t])
  | none => (env.connectResult.mapError Error.ioError, [Event.connectUnbounded host])

/-- Mirrors `Connection::send` (the plaintext entry point, `not(feature =
"proxy")` build, where `Connection::connect` is exactly `tcp_connect` on the
request's host): normalize the host to ASCII, derive the remaining duration
and the absolute deadline from the resolved timeout, connect, recalibrate the
budget at the post-connect clock, set the write timeout (error discarded),
write the serialized request, unwrap the `BufWriter`, hand the stream with
the original deadline to the lazy response reader, and run redirect
handling. Every early error aborts with the trace accumulated so far. -/
def Connection.send (conn : Connection) (env : SendEnv) :
    Except Error ResponseLazy × List Event :=
  match ensure_ascii_host conn.request.host with
  | Except.error e => (Except.error e, [])
  | Except.ok host =>
    let conn : Connection := { conn with request := { conn.request with host := host } }
    let timeout_duration := conn.timeout
    let timeout_at := timeout_duration.map (fun d => env.now0 + d)
    match tcp_connect env conn.request.host timeout_duration with
    | (Except.error e, evs) => (Except.error e, evs)
    | (Except.ok _, evs) =>
      match calibrate_timeout timeout_duration timeout_at (env.now0 + env.connectElapsed) with
      | Except.error e => (Except.error e, evs)
      | Except.ok timeout_duration =>
        let evs := evs ++ [Event.setWriteTimeout timeout_duration]
        match env.writeResult with
        | Except.error e => (Except.error (Error.ioError e), evs ++ [Event.writeAll])
        | Except.ok _ =>
          let evs := evs ++ [Event.writeAll]
          if env.intoInnerOk then
            let evs := evs ++ [Event.readResponse timeout_at]
            match env.response with
            | Except.error e => (Except.error e, evs)
            | Except.ok response =>
              (handle_redirects env.redirectTo env.sendLazy conn response, evs)
          else
            (Except.error (Error.otherErr "IntoInnerError after writing the request into the TcpStream."),
              evs)

/-- An event that carries a finite time bound (a bounded connect, a write
timeout actually installed, or a read deadline on the response stream). -/
def Event.bounded : Event → Bool
  | Event.connectBounded _ _ => true
  | Event.setWriteTimeout (some _) => true
  | Event.readResponse (some _) => true
  | _ => false

/-- Mirrors the proxy CONNECT read loop of `Connection::connect`: each
iteration allocates a fresh 256-byte zeroed buffer, reads into it (`chunk` is
the bytes actually received, `chunk.length ≤ 256`), appends the WHOLE buffer
to the accumulator, and stops after the first short read. The successive read
outcomes are the list `chunks`; `none` means the modelled outcomes were
exhausted before a short read occurred. -/
def proxy_read_loop : List (List Nat) → List Nat → Option (List Nat)
  | [], _ => none
  | chunk :: rest, acc =>
    let buf := chunk ++ List.replicate (256 - chunk.length) 0
    let acc := acc ++ buf
    if chunk.length < 256 then some acc else proxy_read_loop rest acc

/-- Claim C1: for every read on a Transport Stream (plaintext or TLS variant
alike) with a deadline set: if the deadline is at or before the current
instant, the read fails immediately with a timed-out I/O error and no socket
read is performed; otherwise the socket's read timeout is first set to the
remaining duration (deadline minus now) and the blocking read is then
performed. -/
theorem C1_stream_read_deadline (stream : HttpStream) (now t : Nat)
    (socketRead : Except IOErr Nat) (h : stream.timeoutAt = some t) :
    (t ≤ now →
      stream.read now socketRead =
        (Except.error ⟨IOErrorKind.timedOut, "The request's timeout was reached."⟩, [])) ∧
    (now < t →
      stream.read now socketRead =
        (socketRead, [ReadEvent.setReadTimeout (t - now), ReadEvent.socketRead])) := by
  unfold HttpStream.read
  rw [h]
  constructor
  · intro hle
    simp [hle]
  · intro hlt
    simp [Nat.not_le.mpr hlt]

/-- Witness for C1 at concrete inputs: an expired deadline (5 at instant 7)
fails with no socket read; a live deadline (9 at instant 7) sets the read
timeout to 2 and delegates. -/
theorem C1_stream_read_deadline_witness :
    (HttpStream.unsecured (some 5)).read 7 (Except.ok 0) =
      (Except.error ⟨IOErrorKind.timedOut, "The request's timeout was reached."⟩, []) ∧
    (HttpStream.secured (some 9)).read 7 (Except.ok 3) =
      (Except.ok 3, [ReadEvent.setReadTimeout 2, ReadEvent.socketRead]) :=
  ⟨(C1_stream_read_deadline (HttpStream.unsecured (some 5)) 7 5 (Except.ok 0) rfl).1 (by decide),
   (C1_stream_read_deadline (HttpStream.secured (some 9)) 7 9 (Except.ok 3) rfl).2 (by decide)⟩

/-- Claim C2: calibrate_timeout is a no-op returning ok when both the
remaining duration and the deadline are absent; when the deadline has not yet
elapsed it sets the remaining duration to deadline minus now and returns ok;
when the deadline has already elapsed it returns a TimedOut error rather than
producing a zero or negative duration. -/
theorem C2_calibrate_timeout (d t now : Nat) :
    calibrate_timeout none none now = Except.ok none ∧
    (now < t → calibrate_timeout (some d) (some t) now = Except.ok (some (t - now))) ∧
    (t < now → calibrate_timeout (some d) (some t) now =
      Except.error (Error.ioError ⟨IOErrorKind.timedOut,
        "the request's timeout was reached during the initial connection"⟩)) := by
  refine ⟨rfl, ?_, ?_⟩
  · intro hlt
    simp [calibrate_timeout, Nat.le_of_lt hlt]
  · intro hlt
    simp [calibrate_timeout, Nat.not_le.mpr hlt]

/-- Witness for C2 at concrete inputs: a live deadline (10 at instant 3)
recalibrates to 7; an elapsed deadline (10 at instant 12) fails TimedOut. -/
theorem C2_calibrate_timeout_witness :
    calibrate_timeout (some 5) (some 10) 3 = Except.ok (some 7) ∧
    calibrate_timeout (some 5) (some 10) 12 =
      Except.error (Error.ioError ⟨IOErrorKind.timedOut,
        "the request's timeout was reached during the initial connection"⟩) :=
  ⟨(C2_calibrate_timeout 5 10 3).2.1 (by decide),
   (C2_calibrate_timeout 5 10 12).2.2 (by decide)⟩

/-- Claim C10: calibrate_timeout returns the deadline-exceeded error exactly
when the deadline is strictly before the current instant; at exact equality
it succeeds with a zero remaining duration — and, per the std
set_write_timeout contract whose error the caller discards, a Some(0)
argument installs no write-timeout bound on the socket. -/
theorem C10_calibrate_boundary (d t now : Nat) :
    ((∃ e, calibrate_timeout (some d) (some t) now = Except.error e) ↔ t < now) ∧
    calibrate_timeout (some d) (some t) t = Except.ok (some 0) ∧
    set_write_timeout_state none (some 0) = none := by
  refine ⟨?_, by simp [calibrate_timeout], rfl⟩
  constructor
  · rintro ⟨e, he⟩
    by_contra hnot
    rw [Nat.not_lt] at hnot
    simp [calibrate_timeout, hnot] at he
  · intro hlt
    refine ⟨Error.ioError ⟨IOErrorKind.timedOut,
      "the request's timeout was reached during the initial connection"⟩, ?_⟩
    simp [calibrate_timeout, Nat.not_le.mpr hlt]

/-- Claim C3: for a redirect decision on a status in {301, 302, 303, 307}
with a Location header present, when the rewritten request is produced (for
any method-preserving `redirect_to` collaborator): on a 303 with original
method POST, PUT or DELETE the follow-up method is GET; on a 303 with any
other method, and on 301, 302 and 307 with every method, the follow-up
method equals the original method. -/
theorem C3_redirect_method (redirectTo : Request → String → Except Error Request)
    (connection : Connection) (status_code : Int) (u : String) (request : Request)
    (hpres : ∀ r url r2, redirectTo r url = Except.ok r2 → r2.method = r.method)
    (hstatus : status_code = 301 ∨ status_code = 302 ∨ status_code = 303 ∨ status_code = 307)
    (hget : get_redirect redirectTo connection status_code (some u) = some (Except.ok request)) :
    (status_code = 303 →
      ((connection.request.method = Method.post ∨ connection.request.method = Method.put ∨
          connection.request.method = Method.delete) → request.method = Method.get) ∧
      (connection.request.method ≠ Method.post → connection.request.method ≠ Method.put →
        connection.request.method ≠ Method.delete →
          request.method = connection.request.method)) ∧
    (status_code ≠ 303 → request.method = connection.request.method) := by
  unfold get_redirect at hget
  rw [if_pos hstatus] at hget
  rcases hr : redirectTo connection.request u with e | r2
  · simp [hr] at hget
  · simp only [hr, Option.some.injEq, Except.ok.injEq] at hget
    have hm : r2.method = connection.request.method := hpres _ _ _ hr
    subst hget
    refine ⟨fun h303 => ?_, fun h303 => ?_⟩
    · rw [if_pos h303, ← hm]
      clear hm
      rcases hm2 : r2.method with _ | _ | _ | _ | _ | _ | _ | _ | s <;>
        constructor <;> simp_all
    · rw [if_neg h303]
      exact hm

/-- Witness for C3 at concrete inputs: a 303 downgrades a POST to GET, and a
307 preserves a PUT, with a host-rewriting method-preserving redirect_to. -/
theorem C3_redirect_method_witness :
    (⟨"b:80", Method.get, none⟩ : Request).method = Method.get ∧
    (⟨"b:80", Method.put, none⟩ : Request).method =
      (Connection.mk ⟨"a:80", Method.put, none⟩ none).request.method :=
  ⟨((C3_redirect_method (fun r url => Except.ok { r with host := url })
      (Connection.mk ⟨"a:80", Method.post, none⟩ none) 303 "b:80"
      ⟨"b:80", Method.get, none⟩
      (fun r url r2 h => by injection h with h2; rw [← h2])
      (Or.inr (Or.inr (Or.inl rfl))) (by rfl)).1 rfl).1 (Or.inl rfl),
   (C3_redirect_method (fun r url => Except.ok { r with host := url })
      (Connection.mk ⟨"a:80", Method.put, none⟩ none) 307 "b:80"
      ⟨"b:80", Method.put, none⟩
      (fun r url r2 h => by injection h with h2; rw [← h2])
      (Or.inr (Or.inr (Or.inr rfl))) (by rfl)).2 (by decide)⟩

/-- Claim C4: for every response whose status is in {301, 302, 303, 307} and
whose Location header is absent, redirect handling (the tail of every send)
returns the RedirectLocationMissing error and never the response itself. -/
theorem C4_missing_location (redirectTo : Request → String → Except Error Request)
    (sendLazy : Request → Except Error ResponseLazy)
    (connection : Connection) (response : ResponseLazy)
    (hstatus : response.status_code = 301 ∨ response.status_code = 302 ∨
      response.status_code = 303 ∨ response.status_code = 307)
    (hloc : headersGet response.headers "location" = none) :
    handle_redirects redirectTo sendLazy connection response =
      Except.error Error.redirectLocationMissing := by
  simp only [handle_redirects, hloc]
  unfold get_redirect
  rw [if_pos hstatus]
  rfl

/-- Witness for C4 at a concrete input: a 301 with no headers at all. -/
theorem C4_missing_location_witness :
    handle_redirects (fun r _ => Except.ok r) (fun _ => Except.ok ⟨200, []⟩)
      (Connection.mk ⟨"a:80", Method.get, none⟩ none) ⟨301, []⟩ =
      Except.error Error.redirectLocationMissing :=
  C4_missing_location (fun r _ => Except.ok r) (fun _ => Except.ok ⟨200, []⟩)
    (Connection.mk ⟨"a:80", Method.get, none⟩ none) ⟨301, []⟩
    (Or.inl rfl) rfl

/-- Claim C6: for every response whose status is not 301, 302, 303 or 307,
redirect handling performs no follow-up send (get_redirect decides none, so
the result does not depend on the re-entry collaborator) and the original
response is returned unchanged, whether or not a Location header is present. -/
theorem C6_non_redirect (redirectTo : Request → String → Except Error Request)
    (sendLazy : Request → Except Error ResponseLazy)
    (connection : Connection) (response : ResponseLazy)
    (h301 : response.status_code ≠ 301) (h302 : response.status_code ≠ 302)
    (h303 : response.status_code ≠ 303) (h307 : response.status_code ≠ 307) :
    handle_redirects redirectTo sendLazy connection response = Except.ok response ∧
    get_redirect redirectTo connection response.status_code
      (headersGet response.headers "location") = none := by
  have hnot : ¬(response.status_code = 301 ∨ response.status_code = 302 ∨
      response.status_code = 303 ∨ response.status_code = 307) := by
    simp [h301, h302, h303, h307]
  have hg : get_redirect redirectTo connection response.status_code
      (headersGet response.headers "location") = none := by
    unfold get_redirect
    rw [if_neg hnot]
  refine ⟨?_, hg⟩
  simp only [handle_redirects, hg]

/-- Witness for C6 at a concrete input: a 404 with a Location header present
is returned unchanged, with a re-entry collaborator that would be observable
if it were ever called. -/
theorem C6_non_redirect_witness :
    handle_redirects (fun r _ => Except.ok r) (fun _ => Except.error Error.redirectLocationMissing)
      (Connection.mk ⟨"a:80", Method.get, none⟩ none) ⟨404, [("location", "b:80")]⟩ =
      Except.ok ⟨404, [("location", "b:80")]⟩ :=
  (C6_non_redirect (fun r _ => Except.ok r) (fun _ => Except.error Error.redirectLocationMissing)
    (Connection.mk ⟨"a:80", Method.get, none⟩ none) ⟨404, [("location", "b:80")]⟩
    (by decide) (by decide) (by decide) (by decide)).1

/-- A concrete external world (DNS, connect, write and read all succeed
instantly with a 200 response) used to instantiate the send theorems. -/
def sampleEnv : SendEnv :=
  { now0 := 0
    connectElapsed := 0
    dnsResult := Except.ok (some ())
    connectResult := Except.ok ()
    writeResult := Except.ok ()
    intoInnerOk := true
    response := Except.ok ⟨200, []⟩
    redirectTo := fun r _ => Except.ok r
    sendLazy := fun _ => Except.ok ⟨200, []⟩ }

/-- With no resolved timeout, a send's trace is one of four prefixes of the
unbounded pipeline, whichever external outcome cuts it short. -/
lemma send_trace_timeout_none (conn : Connection) (env : SendEnv)
    (hnone : conn.timeout = none) :
    (conn.send env).2 = [] ∨
    ∃ host,
      (conn.send env).2 = [Event.connectUnbounded host] ∨
      (conn.send env).2 =
        [Event.connectUnbounded host, Event.setWriteTimeout none, Event.writeAll] ∨
      (conn.send env).2 =
        [Event.connectUnbounded host, Event.setWriteTimeout none, Event.writeAll,
          Event.readResponse none] := by
  rcases hascii : ensure_ascii_host conn.request.host with e | host
  · left
    simp [Connection.send, hascii]
  · right
    refine ⟨host, ?_⟩
    rcases hc : env.connectResult with ce | cu
    · left
      simp [Connection.send, hascii, hnone, hc, tcp_connect, Except.mapError]
    · rcases hw : env.writeResult with we | wu
      · right; left
        simp [Connection.send, hascii, hnone, hc, hw, tcp_connect, calibrate_timeout,
          Except.mapError]
      · rcases hio : env.intoInnerOk
        · right; left
          simp [Connection.send, hascii, hnone, hc, hw, hio, tcp_connect, calibrate_timeout,
            Except.mapError]
        · rcases hr : env.response with re | ru <;>
          · right; right
            simp [Connection.send, hascii, hnone, hc, hw, hio, hr, tcp_connect,
              calibrate_timeout, Except.mapError]

/-- Claim C7: Connection.new resolves the timeout as the request's explicit
timeout if present, otherwise as the MINREQ_TIMEOUT environment variable
parsed as an unsigned integer (an unset or unparseable variable contributes
nothing), otherwise none — and with a resolved timeout of none, no blocking
phase of send carries a time bound and no deadline is ever attached. -/
theorem C7_timeout_resolution (request : Request) (envTimeout : Option String)
    (conn : Connection) (env : SendEnv) :
    (∀ t, request.timeout = some t → (Connection.new request envTimeout).timeout = some t) ∧
    (request.timeout = none →
      (Connection.new request envTimeout).timeout = envTimeout.bind parse_u64) ∧
    (conn.timeout = none → ∀ ev ∈ (conn.send env).2, ev.bounded = false) := by
  refine ⟨?_, ?_, ?_⟩
  · intro t hrt
    simp [Connection.new, hrt]
  · intro hrt
    simp [Connection.new, hrt]
  · intro hnone ev hev
    rcases send_trace_timeout_none conn env hnone with h | ⟨host, h | h | h⟩
    · rw [h] at hev
      simp at hev
    · rw [h] at hev
      simp at hev
      rw [hev]
      rfl
    · rw [h] at hev
      simp at hev
      rcases hev with rfl | rfl | rfl <;> rfl
    · rw [h] at hev
      simp at hev
      rcases hev with rfl | rfl | rfl | rfl <;> rfl

/-- Witness for C7 at concrete inputs: an explicit timeout of 5 wins over the
environment; with no explicit timeout, MINREQ_TIMEOUT="7" resolves to 7, an
unparseable "x7" resolves to none, and the none-timeout send of sampleEnv
carries no bounded event. -/
theorem C7_timeout_resolution_witness :
    (Connection.new ⟨"a:80", Method.get, some 5⟩ (some "7")).timeout = some 5 ∧
    (Connection.new ⟨"a:80", Method.get, none⟩ (some "7")).timeout = some 7 ∧
    (Connection.new ⟨"a:80", Method.get, none⟩ (some "x7")).timeout = none ∧
    Event.bounded (Event.connectUnbounded "a:80") = false :=
  ⟨(C7_timeout_resolution ⟨"a:80", Method.get, some 5⟩ (some "7")
      (Connection.mk ⟨"a:80", Method.get, none⟩ none) sampleEnv).1 5 rfl,
   ((C7_timeout_resolution ⟨"a:80", Method.get, none⟩ (some "7")
      (Connection.mk ⟨"a:80", Method.get, none⟩ none) sampleEnv).2.1 rfl).trans (by decide),
   ((C7_timeout_resolution ⟨"a:80", Method.get, none⟩ (some "x7")
      (Connection.mk ⟨"a:80", Method.get, none⟩ none) sampleEnv).2.1 rfl).trans (by decide),
   (C7_timeout_resolution ⟨"a:80", Method.get, none⟩ (some "7")
      (Connection.mk ⟨"a:80", Method.get, none⟩ none) sampleEnv).2.2 rfl
      (Event.connectUnbounded "a:80")
      (by simp [Connection.send, sampleEnv, ensure_ascii_host, tcp_connect, calibrate_timeout,
        Except.mapError])⟩

/-- Claim C8: for a request whose host is not pure ASCII, in the build
without the punycode capability, send fails with PunycodeFeatureNotEnabled
before any I/O event at all; a pure-ASCII host passes the check unchanged and
never sees this error. -/
theorem C8_punycode_gate (conn : Connection) (env : SendEnv) :
    (conn.request.host.data.all (fun c => c.toNat < 128) = false →
      conn.send env = (Except.error Error.punycodeFeatureNotEnabled, [])) ∧
    (conn.request.host.data.all (fun c => c.toNat < 128) = true →
      ensure_ascii_host conn.request.host = Except.ok conn.request.host) := by
  constructor
  · intro hna
    have hfail : ensure_ascii_host conn.request.host =
        Except.error Error.punycodeFeatureNotEnabled := by
      simp [ensure_ascii_host, hna]
    simp [Connection.send, hfail]
  · intro ha
    simp [ensure_ascii_host, ha]

/-- Witness for C8 at concrete inputs: a non-ASCII host fails with the
capability error and an empty trace; an ASCII host passes the check. -/
theorem C8_punycode_gate_witness :
    (Connection.mk ⟨"exämple.com:80", Method.get, none⟩ none).send sampleEnv =
      (Except.error Error.punycodeFeatureNotEnabled, []) ∧
    ensure_ascii_host "example.com:80" = Except.ok "example.com:80" :=
  ⟨(C8_punycode_gate (Connection.mk ⟨"exämple.com:80", Method.get, none⟩ none) sampleEnv).1
      (by decide),
   (C8_punycode_gate (Connection.mk ⟨"example.com:80", Method.get, none⟩ none) sampleEnv).2
      (by decide)⟩

/-- Claim C5 (amended): with an effective timeout of 0 seconds resolved
before the connect phase, send still performs DNS resolution and passes the
zero duration to TcpStream::connect_timeout, which rejects it with an
InvalidInput I/O error — so the failure is a generic socket-layer error
after address lookup, not the distinct deadline-exceeded kind, and no
pre-connect deadline check occurs. -/
theorem C5_zero_timeout_connect (conn : Connection) (env : SendEnv) (host : String)
    (hascii : ensure_ascii_host conn.request.host = Except.ok host)
    (htimeout : conn.timeout = some 0)
    (hdns : env.dnsResult = Except.ok (some ())) :
    conn.send env =
      (Except.error (Error.ioError ⟨IOErrorKind.invalidInput, "cannot set a 0 duration timeout"⟩),
        [Event.dnsResolve host]) := by
  simp [Connection.send, hascii, htimeout, tcp_connect, hdns]

/-- Witness for C5 (amended) at a concrete input. -/
theorem C5_zero_timeout_connect_witness :
    (Connection.mk ⟨"example.com:80", Method.get, some 0⟩ (some 0)).send sampleEnv =
      (Except.error (Error.ioError ⟨IOErrorKind.invalidInput, "cannot set a 0 duration timeout"⟩),
        [Event.dnsResolve "example.com:80"]) :=
  C5_zero_timeout_connect (Connection.mk ⟨"example.com:80", Method.get, some 0⟩ (some 0))
    sampleEnv "example.com:80" (by rfl) rfl rfl

/-- Counterexample to claim C5 as stated: with host "example.com:80" and an
already-expired deadline (effective timeout 0), send does perform DNS
resolution — the trace contains the address lookup — and its failure is an
InvalidInput I/O error from the connect call, not the deadline-exceeded
TimedOut error of the calibration step. -/
theorem C5_counterexample :
    Event.dnsResolve "example.com:80" ∈
      ((Connection.mk ⟨"example.com:80", Method.get, some 0⟩ (some 0)).send sampleEnv).2 ∧
    ((Connection.mk ⟨"example.com:80", Method.get, some 0⟩ (some 0)).send sampleEnv).1 =
      Except.error (Error.ioError ⟨IOErrorKind.invalidInput, "cannot set a 0 duration timeout"⟩) ∧
    ((Connection.mk ⟨"example.com:80", Method.get, some 0⟩ (some 0)).send sampleEnv).1 ≠
      Except.error (Error.ioError ⟨IOErrorKind.timedOut,
        "the request's timeout was reached during the initial connection"⟩) := by
  have h : (Connection.mk ⟨"example.com:80", Method.get, some 0⟩ (some 0)).send sampleEnv =
      (Except.error (Error.ioError ⟨IOErrorKind.invalidInput, "cannot set a 0 duration timeout"⟩),
        [Event.dnsResolve "example.com:80"]) := by
    simp [Connection.send, ensure_ascii_host, sampleEnv, tcp_connect]
  rw [h]
  refine ⟨List.mem_singleton.mpr rfl, rfl, ?_⟩
  simp

/-- Each terminating run of the proxy read loop: any sequence of full 256-byte
chunks followed by a first short chunk (whatever reads would come later)
accumulates the received bytes of each full chunk, then the short chunk's
received bytes, then zero padding up to the 256-byte buffer boundary. -/
lemma proxy_read_loop_run (fullChunks : List (List Nat)) (c : List Nat)
    (rest : List (List Nat)) (acc : List Nat)
    (hfull : ∀ ch ∈ fullChunks, ch.length = 256) (hshort : c.length < 256) :
    proxy_read_loop (fullChunks ++ c :: rest) acc =
      some (acc ++ (fullChunks.flatten ++ (c ++ List.replicate (256 - c.length) 0))) := by
  induction fullChunks generalizing acc with
  | nil =>
    simp only [List.nil_append, proxy_read_loop, List.flatten_nil]
    rw [if_pos hshort]
  | cons ch tl ih =>
    have hch : ch.length = 256 := hfull ch (List.mem_cons_self ch tl)
    have htl : ∀ x ∈ tl, x.length = 256 := fun x hx => hfull x (List.mem_cons_of_mem ch hx)
    simp only [List.cons_append, proxy_read_loop, hch, Nat.sub_self, List.replicate_zero,
      List.append_nil, List.flatten_cons, List.append_eq]
    rw [if_neg (by simp [hch])]
    rw [ih (acc ++ ch) htl]
    simp [List.append_assoc]

/-- The flattened length of a list of full 256-byte chunks. -/
lemma flatten_length_of_full (l : List (List Nat)) (h : ∀ ch ∈ l, ch.length = 256) :
    l.flatten.length = 256 * l.length := by
  induction l with
  | nil => simp
  | cons ch tl ih =>
    have hch : ch.length = 256 := h ch (List.mem_cons_self ch tl)
    have htl : ∀ x ∈ tl, x.length = 256 := fun x hx => h x (List.mem_cons_of_mem ch hx)
    simp [List.flatten_cons, hch, ih htl, Nat.mul_add, Nat.mul_succ]
    ring

/-- Claim C9: every terminating proxy tunnel read loop hands the verifier a
byte vector whose length is a positive multiple of 256, and when the final
chunk is short the vector ends in the zero bytes of the untouched buffer tail
beyond the bytes actually received. -/
theorem C9_proxy_response_padding (fullChunks : List (List Nat)) (c : List Nat)
    (rest : List (List Nat)) (out : List Nat)
    (hfull : ∀ ch ∈ fullChunks, ch.length = 256) (hshort : c.length < 256)
    (hrun : proxy_read_loop (fullChunks ++ c :: rest) [] = some out) :
    out = fullChunks.flatten ++ c ++ List.replicate (256 - c.length) 0 ∧
    out.length = 256 * (fullChunks.length + 1) ∧
    0 < out.length := by
  rw [proxy_read_loop_run fullChunks c rest [] hfull hshort] at hrun
  have hout : out = fullChunks.flatten ++ c ++ List.replicate (256 - c.length) 0 := by
    have h2 := Option.some.inj hrun
    rw [← h2]
    simp [List.append_assoc]
  have hlen : out.length = 256 * (fullChunks.length + 1) := by
    rw [hout]
    simp only [List.length_append, List.length_replicate,
      flatten_length_of_full fullChunks hfull]
    omega
  exact ⟨hout, hlen, by omega⟩

/-- Witness for C9 at a concrete input: a single short chunk [7, 8] hands the
verifier 256 bytes — the two received bytes then 254 zeros. -/
theorem C9_proxy_response_padding_witness :
    (([7, 8] ++ List.replicate 254 0 : List Nat)).length = 256 :=
  ((C9_proxy_response_padding [] [7, 8] [] ([7, 8] ++ List.replicate 254 0)
    (by simp) (by norm_num) (by rfl)).2.1).trans (by norm_num)
